import Mathlib

/-!
Verification of the balance-scoring and AI-orchestration layer of the
GoalGenius server (`server/routes.ts`, class `AIService`).

JavaScript numbers are modelled as exact rationals (`ℚ`); `Math.round` is
modelled as `⌊x + 1/2⌋`, which agrees with JavaScript's round-half-up
behaviour on all rationals.  Records are modelled as structures, JSON
optionality as `Option`, and the retry loop as structural recursion on the
remaining attempt budget.
-/

/-- JavaScript `Math.round`: round half toward positive infinity. -/
def jsRound (q : ℚ) : ℤ := ⌊q + 1/2⌋

/-- An event as consumed by `calculateBalanceScore`: a category name and a
duration in minutes. -/
structure BalanceEvent where
  category : String
  duration : ℚ
deriving DecidableEq, Repr

/-- The five canonical category names, in the iteration order of the
`optimal` / `weights` objects in the source. -/
def canonicalCategories : List String :=
  ["work", "health", "leisure", "social", "learning"]

/-- `events.reduce((sum, event) => sum + event.duration, 0)`. -/
def totalDuration (events : List BalanceEvent) : ℚ :=
  events.foldl (fun s e => s + e.duration) 0

/-- Accumulation of `categoryBreakdown[key] += event.duration` over the event
list, for one canonical key `c` (the `hasOwnProperty` guard means only events
whose category equals one of the five keys contribute). -/
def categoryMinutes (c : String) (events : List BalanceEvent) : ℚ :=
  events.foldl (fun s e => if e.category = c then s + e.duration else s) 0

/-- Integer percentage breakdown over the five categories
(`workPercentage` … as stored by the service). -/
structure CategoryBreakdown where
  work : ℤ
  health : ℤ
  leisure : ℤ
  social : ℤ
  learning : ℤ
deriving DecidableEq, Repr

/-- `Math.round((categoryBreakdown[key] / totalTime) * 100)` for each key. -/
def breakdownOf (events : List BalanceEvent) (total : ℚ) : CategoryBreakdown where
  work := jsRound (categoryMinutes "work" events / total * 100)
  health := jsRound (categoryMinutes "health" events / total * 100)
  leisure := jsRound (categoryMinutes "leisure" events / total * 100)
  social := jsRound (categoryMinutes "social" events / total * 100)
  learning := jsRound (categoryMinutes "learning" events / total * 100)

/-- Result shape of `calculateBalanceScore` / `analyzeBalance`. -/
structure BalanceResult where
  score : ℤ
  suggestions : List String
  categoryBreakdown : CategoryBreakdown
deriving DecidableEq, Repr

/-- `getFallbackBalance()`: the canned result used when no time is tracked. -/
def getFallbackBalance : BalanceResult where
  score := 60
  suggestions :=
    [ "Try to add more physical activity to your day"
    , "Consider scheduling dedicated time for relaxation"
    , "Balance work tasks with personal development" ]
  categoryBreakdown := ⟨45, 20, 20, 10, 5⟩

/-- One iteration of the `Object.keys(optimal).forEach` body in
`generateBalanceSuggestions`: emit a directive when `Math.abs(diff) > 15`. -/
def suggestionFor (category : String) (diff : ℤ) : Option String :=
  if 15 < |diff| then
    if 0 < diff then
      some ("Consider reducing " ++ category ++ " time by " ++ toString |diff|
        ++ "% for better balance")
    else
      some ("Try to increase " ++ category ++ " activities by " ++ toString |diff|
        ++ "% for better wellness")
  else
    none

/-- `generateBalanceSuggestions(current, optimal)`: directives for the five
categories in iteration order, an affirming message when none qualifies, then
`slice(0, 3)`. -/
def generateBalanceSuggestions (current : CategoryBreakdown) : List String :=
  let directives := List.filterMap (fun p => suggestionFor p.1 (p.2.1 - p.2.2))
    [ ("work", current.work, 40)
    , ("health", current.health, 25)
    , ("leisure", current.leisure, 20)
    , ("social", current.social, 10)
    , ("learning", current.learning, 5) ]
  let suggestions :=
    if directives.isEmpty then
      directives ++ ["Your schedule shows good balance! Keep maintaining this routine."]
    else directives
  suggestions.take 3

/-- `calculateBalanceScore(events)` from `server/routes.ts`: total the
durations, fall back when the total is zero, otherwise build the rounded
percentage breakdown, subtract the weighted, damped deviations from 100
(weights work 1.0, health 1.2, leisure 0.8, social 0.6, learning 0.7;
damping 0.4), round and clamp the score, and attach suggestions. -/
def calculateBalanceScore (events : List BalanceEvent) : BalanceResult :=
  let totalTime := totalDuration events
  if totalTime = 0 then
    getFallbackBalance
  else
    let b := breakdownOf events totalTime
    let score0 : ℚ := 100
    let score1 := score0 - (|b.work - 40| : ℤ) * 1.0 * 0.4
    let score2 := score1 - (|b.health - 25| : ℤ) * 1.2 * 0.4
    let score3 := score2 - (|b.leisure - 20| : ℤ) * 0.8 * 0.4
    let score4 := score3 - (|b.social - 10| : ℤ) * 0.6 * 0.4
    let score5 := score4 - (|b.learning - 5| : ℤ) * 0.7 * 0.4
    { score := max 0 (min 100 (jsRound score5))
    , suggestions := generateBalanceSuggestions b
    , categoryBreakdown := b }

/-- Balance score as the spec words it: start at 100, for each of the five
categories subtract `|actual% − optimal%| × weight × 0.4` with optimal
`{work 40, health 25, leisure 20, social 10, learning 5}`, clamp the final
score to `[0, 100]` and round to the nearest integer. -/
def specBalanceScore (b : CategoryBreakdown) : ℤ :=
  let penalty : ℚ :=
    |(b.work : ℚ) - 40| * 1.0 * 0.4
    + |(b.health : ℚ) - 25| * 1.2 * 0.4
    + |(b.leisure : ℚ) - 20| * 0.8 * 0.4
    + |(b.social : ℚ) - 10| * 0.6 * 0.4
    + |(b.learning : ℚ) - 5| * 0.7 * 0.4
  jsRound (max 0 (min 100 (100 - penalty)))

/-- Suggestions as the spec words them: one directive per category whose
absolute deviation exceeds 15 points, in category iteration order, capped at
3; a single affirming message when no deviation qualifies. -/
def specBalanceSuggestions (b : CategoryBreakdown) : List String :=
  let directives := List.filterMap (fun p => suggestionFor p.1 (p.2.1 - p.2.2))
    [ ("work", b.work, 40)
    , ("health", b.health, 25)
    , ("leisure", b.leisure, 20)
    , ("social", b.social, 10)
    , ("learning", b.learning, 5) ]
  if directives = [] then
    ["Your schedule shows good balance! Keep maintaining this routine."]
  else
    directives.take 3

/-! ### Timeframe parsing (`parseTimeframeToDays`, `parseStudyHours`) -/

/-- `String.toLowerCase()` applied characterwise (the source only feeds ASCII). -/
def jsToLowerCase (s : String) : String :=
  ⟨s.data.map Char.toLower⟩

/-- Substring occurrence over character lists, for `String.includes`. -/
def listContainsSub (needle : List Char) : List Char → Bool
  | [] => needle.isEmpty
  | c :: rest => needle.isPrefixOf (c :: rest) || listContainsSub needle rest

/-- `hay.includes(needle)`: `needle` occurs contiguously in `hay`. -/
def containsSubstring (hay needle : String) : Bool :=
  listContainsSub needle.data hay.data

/-- First maximal run of decimal digits, as matched by the regex `\d+`
(`none` when the string contains no digit). -/
def firstDigitRun : List Char → Option (List Char)
  | [] => none
  | c :: rest =>
    if c.isDigit then some (c :: rest.takeWhile Char.isDigit)
    else firstDigitRun rest

/-- Decimal value of a digit run, as `parseInt` computes it. -/
def digitsToNat (ds : List Char) : ℕ :=
  ds.foldl (fun n c => 10 * n + (c.toNat - 48)) 0

/-- `parseInt(s.match(/\d+/)?.[0])`, `none` when there is no digit to match. -/
def matchFirstNat (s : String) : Option ℕ :=
  (firstDigitRun s.data).map digitsToNat

/-- `parseTimeframeToDays(timeframe)`: weeks ×7 (default 4), months ×30
(default 1), plain day count (default 30), otherwise the 30-day default. -/
def parseTimeframeToDays (timeframe : String) : ℕ :=
  let timeframeLower := jsToLowerCase timeframe
  if containsSubstring timeframeLower "week" then
    ((matchFirstNat timeframeLower).getD 4) * 7
  else if containsSubstring timeframeLower "month" then
    ((matchFirstNat timeframeLower).getD 1) * 30
  else if containsSubstring timeframeLower "day" then
    (matchFirstNat timeframeLower).getD 30
  else
    30

/-- `parseStudyHours(studyHours)`: first number (default 2) clamped to `[1, 8]`. -/
def parseStudyHours (studyHours : String) : ℕ :=
  min (max ((matchFirstNat studyHours).getD 2) 1) 8

/-! ### Schedule responses: parser and fallback (`parseScheduleResponse`,
`generateFallbackScheduleResponse`, `generateFallbackChatResponse`) -/

/-- An element of the parsed `schedule` array.  A JSON field that is absent or
the empty string is falsy in the source's filter, so string fields carry `""`
for "missing". -/
structure RawScheduleItem where
  title : String
  category : String
  startTime : String
  endTime : String
  description : Option String
deriving DecidableEq, Repr

/-- The `balanceAnalysis` percentage record. -/
structure BalancePercentages where
  workPercentage : ℚ
  healthPercentage : ℚ
  leisurePercentage : ℚ
  socialPercentage : ℚ
  learningPercentage : ℚ
deriving DecidableEq, Repr

/-- `AIScheduleResponse` from the source. -/
structure AIScheduleResponse where
  schedule : List RawScheduleItem
  balanceAnalysis : BalancePercentages
  suggestions : List String
deriving DecidableEq, Repr

/-- The parts of `AIScheduleRequest` the fallback path can observe. -/
structure AIScheduleRequest where
  goals : String
  userId : ℤ
deriving DecidableEq, Repr

/-- The JSON object extracted from the model text, after `JSON.parse`: each
top-level field may be absent (`none`). -/
structure ParsedPayload where
  schedule : Option (List RawScheduleItem)
  balanceAnalysis : Option BalancePercentages
  suggestions : Option (List String)
deriving DecidableEq, Repr

/-- The filter predicate `item.title && item.category && item.startTime &&
item.endTime` (truthiness of the four strings). -/
def itemTruthy (i : RawScheduleItem) : Bool :=
  i.title ≠ "" && i.category ≠ "" && i.startTime ≠ "" && i.endTime ≠ ""

/-- The literal default used for a missing `balanceAnalysis`. -/
def defaultBalanceAnalysis : BalancePercentages :=
  ⟨40, 25, 20, 10, 5⟩

/-- `generateFallbackScheduleResponse(request)`: the fixed five-activity
template with the optimal balance analysis and three canned suggestions. -/
def generateFallbackScheduleResponse (request : AIScheduleRequest) : AIScheduleResponse where
  schedule :=
    [ { title := "Morning Planning", category := "work", startTime := "09:00"
      , endTime := "09:30", description := some "Review daily goals and priorities" }
    , { title := "Focus Work Session", category := "work", startTime := "09:30"
      , endTime := "11:30", description := some "Deep work on most important tasks" }
    , { title := "Health Break", category := "health", startTime := "12:00"
      , endTime := "12:30", description := some "Exercise or mindful walk" }
    , { title := "Learning Time", category := "learning", startTime := "18:00"
      , endTime := "19:00", description := some "Skill development or reading" }
    , { title := "Personal Time", category := "leisure", startTime := "20:00"
      , endTime := "21:00", description := some "Relaxation and personal activities" } ]
  balanceAnalysis := ⟨40, 25, 20, 10, 5⟩
  suggestions :=
    [ "Maintain consistent daily routines for better productivity"
    , "Take regular breaks to avoid burnout"
    , "Schedule social activities to maintain relationships" ]

/-- `parseScheduleResponse(response)`, from the point where the JSON payload
has been extracted: `none` models text with no parseable JSON object.  When a
`schedule` array is present its items are filtered by field truthiness only;
otherwise the fallback response for `{goals: 'General productivity', userId: 0}`
is returned. -/
def parseScheduleResponse (payload : Option ParsedPayload) : AIScheduleResponse :=
  match payload with
  | some parsed =>
    match parsed.schedule with
    | some arr =>
      { schedule := arr.filter itemTruthy
      , balanceAnalysis := parsed.balanceAnalysis.getD defaultBalanceAnalysis
      , suggestions := parsed.suggestions.getD [] }
    | none => generateFallbackScheduleResponse ⟨"General productivity", 0⟩
  | none => generateFallbackScheduleResponse ⟨"General productivity", 0⟩

/-- The five canned chat replies of `generateFallbackChatResponse`. -/
def chatFallbackResponses : List String :=
  [ "I\x27m here to help you achieve better work-life balance. What specific area would you like to focus on?"
  , "Let\x27s work together to optimize your schedule. What are your main goals right now?"
  , "Building sustainable habits is key to long-term success. What would you like to improve first?"
  , "I can help you create a balanced schedule that works for your lifestyle. What\x27s your biggest challenge?"
  , "Great question! Focus on small, consistent improvements rather than dramatic changes." ]

/-- `generateFallbackChatResponse(message)`: picks
`responses[Math.floor(Math.random() * responses.length)]`.  The call to
`Math.random()` is made explicit as the argument `randomDraw ∈ [0, 1)`. -/
def generateFallbackChatResponse (message : String) (randomDraw : ℚ) : String :=
  (chatFallbackResponses.get?
    (⌊randomDraw * (chatFallbackResponses.length : ℚ)⌋.toNat)).getD ""

/-! ### The goal-plan fallback schedule and the `generateSchedule` retry loop -/

/-- `padStart(2, '0')` on a decimal numeral. -/
def pad2 (n : ℕ) : String :=
  if n < 10 then "0" ++ toString n else toString n

/-- `addMinutesToTime(time, minutes)`: shift an `HH:MM` string. -/
def addMinutesToTime (time : String) (minutes : ℕ) : String :=
  let parts := time.splitOn ":"
  let hours := ((parts.get? 0).bind String.toNat?).getD 0
  let mins := ((parts.get? 1).bind String.toNat?).getD 0
  let totalMinutes := hours * 60 + mins + minutes
  pad2 (totalMinutes / 60) ++ ":" ++ pad2 (totalMinutes % 60)

/-- The study-preference record reachable from the goal-plan fallback. -/
structure GoalPlanPreferences where
  studyHours : Option String
  resources : Option (List String)
deriving DecidableEq, Repr

/-- The parts of `AIGoalPlanRequest` the goal-plan fallback reads. -/
structure AIGoalPlanRequest where
  preferences : Option GoalPlanPreferences
deriving DecidableEq, Repr

/-- An item pushed by the goal-plan `generateFallbackSchedule`; calendar dates
are modelled as epoch day numbers. -/
structure GoalScheduleItem where
  title : String
  category : String
  startTime : String
  endTime : String
  description : String
  date : ℤ
  priority : String
  resources : List String
deriving DecidableEq, Repr

/-- `generateFallbackSchedule(startDate, timeframeDays, request)` from the
goal-plan path.  `timeframeDays = none` models the JavaScript `undefined`, for
which `Math.min(undefined, 14)` is `NaN` and `day < NaN` is false, so the loop
never runs; `request = none` models an `undefined` request, for which reading
`request.preferences` throws a `TypeError`, modelled as `Except.error`. -/
def generateFallbackSchedule (startDay : ℤ) (timeframeDays : Option ℤ)
    (request : Option AIGoalPlanRequest) : Except String (List GoalScheduleItem) :=
  match request with
  | none =>
    .error "TypeError: Cannot read properties of undefined (reading \x27preferences\x27)"
  | some req =>
    let studyHours : ℕ :=
      match req.preferences with
      | some prefs =>
        match prefs.studyHours with
        | some sh => if sh = "" then 2 else parseStudyHours sh
        | none => 2
      | none => 2
    let resources := fun (d : List String) =>
      match req.preferences with
      | some prefs => (prefs.resources).getD d
      | none => d
    let bound : ℕ :=
      match timeframeDays with
      | some n => (min n 14).toNat
      | none => 0
    .ok ((List.range bound).foldl (fun acc day =>
      acc ++
        [ { title := "Study Session - Day " ++ toString (day + 1)
          , category := "learning", startTime := "09:00"
          , endTime := addMinutesToTime "09:00" (studyHours * 30)
          , description := "Focused learning and concept review"
          , date := startDay + day, priority := "high"
          , resources := resources ["Study Materials"] }
        , { title := "Practice Session - Day " ++ toString (day + 1)
          , category := "practice"
          , startTime := addMinutesToTime "09:00" (studyHours * 30 + 30)
          , endTime := addMinutesToTime "09:00" (studyHours * 60 + 30)
          , description := "Hands-on problem solving and implementation"
          , date := startDay + day, priority := "high"
          , resources := resources ["Practice Platform"] } ]) [])

/-- One simulated gateway call: `failure` models a thrown error (network
error, non-2xx, timeout); `success p` models generated text whose JSON
extraction yields `p` (`none` when no JSON object parses). -/
inductive GatewayOutcome where
  | failure
  | success (payload : Option ParsedPayload)

/-- What `generateSchedule` hands back to its caller: a resolved
`AIScheduleResponse`, the raw array of the mis-called goal-plan fallback, or a
rejection carrying an uncaught exception. -/
inductive GenerateScheduleResult where
  | response (r : AIScheduleResponse)
  | arrayValue (items : List GoalScheduleItem)
  | thrown (e : String)
deriving DecidableEq, Repr

/-- `this.maxRetries = 3`. -/
def maxRetries : ℕ := 3

/-- `this.baseDelay = 1000`. -/
def baseDelay : ℕ := 1000

/-- The retry loop of `generateSchedule`, from attempt number `attempt` with
`fuel = maxRetries − attempt` iterations left: on success the parsed response
is returned at once; on failure a backoff delay `baseDelay * 2 ^ attempt` is
recorded when `attempt < maxRetries − 1` (that is, when another iteration
follows); when the loop ends, `this.generateFallbackSchedule(request)` is
invoked — one argument for a three-parameter method, so `timeframeDays` and
`request` are both `undefined` inside. -/
def generateScheduleFrom (gateway : ℕ → GatewayOutcome) :
    (attempt : ℕ) → (fuel : ℕ) → List ℕ × GenerateScheduleResult
  | _, 0 =>
    ([], match generateFallbackSchedule 0 none none with
         | .ok items => .arrayValue items
         | .error e => .thrown e)
  | attempt, fuel + 1 =>
    match gateway attempt with
    | .success payload => ([], .response (parseScheduleResponse payload))
    | .failure =>
      if fuel = 0 then
        generateScheduleFrom gateway (attempt + 1) fuel
      else
        let rest := generateScheduleFrom gateway (attempt + 1) fuel
        (baseDelay * 2 ^ attempt :: rest.1, rest.2)

/-- `generateSchedule(request)`, as a function of the gateway behaviour:
returns the recorded backoff delays and the outcome. -/
def generateSchedule (gateway : ℕ → GatewayOutcome) : List ℕ × GenerateScheduleResult :=
  generateScheduleFrom gateway 0 maxRetries

/-- A malformed schedule item whose category is outside the taxonomy but
whose four required fields are non-empty. -/
def gamingItem : RawScheduleItem :=
  { title := "Evening Gaming", category := "gaming", startTime := "21:00"
  , endTime := "22:00", description := none }

/-- A model schedule array with one complete item and one whose `title` is
missing (empty). -/
def sampleScheduleArr : List RawScheduleItem :=
  [ { title := "Standup", category := "work", startTime := "09:00"
    , endTime := "09:15", description := none }
  , { title := "", category := "health", startTime := "10:00"
    , endTime := "10:30", description := none } ]

/-- A model payload carrying `sampleScheduleArr` and nothing else. -/
def samplePayload : ParsedPayload where
  schedule := some sampleScheduleArr
  balanceAnalysis := none
  suggestions := none

/-- A helper for C4 and C10: slicing after the conditional affirming push. -/
theorem take3_affirm (ds : List String) (a : String) :
    (if ds.isEmpty then ds ++ [a] else ds).take 3
      = if ds = [] then [a] else ds.take 3 := by
  cases ds with
  | nil => simp
  | cons x t => simp

/-- Length bounds for the suggestion slice. -/
theorem take3_affirm_length (ds : List String) (a : String) :
    1 ≤ ((if ds.isEmpty then ds ++ [a] else ds).take 3).length
      ∧ ((if ds.isEmpty then ds ++ [a] else ds).take 3).length ≤ 3 := by
  cases ds with
  | nil => simp
  | cons x t =>
    simp [List.length_take]

/-! ### Helper lemmas -/

theorem totalDuration_shift (l : List BalanceEvent) (a b : ℚ) :
    l.foldl (fun s e => s + e.duration) (a + b)
      = a + l.foldl (fun s e => s + e.duration) b := by
  induction l generalizing b with
  | nil => rfl
  | cons e t ih =>
    simp only [List.foldl_cons]
    rw [add_assoc, ih]

theorem totalDuration_cons (e : BalanceEvent) (l : List BalanceEvent) :
    totalDuration (e :: l) = e.duration + totalDuration l := by
  unfold totalDuration
  simp only [List.foldl_cons, zero_add]
  have h := totalDuration_shift l e.duration 0
  rw [add_zero] at h
  exact h

theorem categoryMinutes_shift (c : String) (l : List BalanceEvent) (a b : ℚ) :
    l.foldl (fun s e => if e.category = c then s + e.duration else s) (a + b)
      = a + l.foldl (fun s e => if e.category = c then s + e.duration else s) b := by
  induction l generalizing b with
  | nil => rfl
  | cons e t ih =>
    simp only [List.foldl_cons]
    by_cases h : e.category = c
    · rw [if_pos h, if_pos h, add_assoc, ih]
    · rw [if_neg h, if_neg h, ih]

theorem categoryMinutes_cons (c : String) (e : BalanceEvent) (l : List BalanceEvent) :
    categoryMinutes c (e :: l)
      = (if e.category = c then e.duration else 0) + categoryMinutes c l := by
  unfold categoryMinutes
  simp only [List.foldl_cons, zero_add]
  by_cases h : e.category = c
  · rw [if_pos h]
    have hs := categoryMinutes_shift c l e.duration 0
    rw [add_zero] at hs
    exact hs
  · rw [if_neg h, zero_add]

/-- When every event carries a canonical category, the five per-category
totals partition the total tracked time. -/
theorem categoryMinutes_total (events : List BalanceEvent)
    (h : ∀ e ∈ events, e.category ∈ canonicalCategories) :
    categoryMinutes "work" events + categoryMinutes "health" events
      + categoryMinutes "leisure" events + categoryMinutes "social" events
      + categoryMinutes "learning" events = totalDuration events := by
  induction events with
  | nil => simp [categoryMinutes, totalDuration]
  | cons e t ih =>
    have he : e.category ∈ canonicalCategories := h e (List.mem_cons_self e t)
    have ht : ∀ x ∈ t, x.category ∈ canonicalCategories := fun x hx =>
      h x (List.mem_cons_of_mem e hx)
    have hsum := ih ht
    rw [categoryMinutes_cons, categoryMinutes_cons, categoryMinutes_cons,
      categoryMinutes_cons, categoryMinutes_cons, totalDuration_cons]
    simp only [canonicalCategories, List.mem_cons, List.not_mem_nil, or_false] at he
    rcases he with h1 | h1 | h1 | h1 | h1 <;> rw [h1] <;> simp <;> linarith

theorem jsRound_le (q : ℚ) : (jsRound q : ℚ) ≤ q + 1/2 :=
  Int.floor_le _

theorem lt_jsRound (q : ℚ) : q - 1/2 < (jsRound q : ℚ) := by
  have h := Int.lt_floor_add_one (q + 1/2)
  unfold jsRound
  linarith

theorem jsRound_mono {a b : ℚ} (h : a ≤ b) : jsRound a ≤ jsRound b :=
  Int.floor_mono (by linarith)

theorem jsRound_zero : jsRound 0 = 0 := by with_unfolding_all decide

theorem jsRound_hundred : jsRound 100 = 100 := by with_unfolding_all decide

/-- Rounding first and clamping to `[0, 100]` second agrees with clamping
first and rounding second. -/
theorem clamp_jsRound_comm (q : ℚ) :
    max 0 (min 100 (jsRound q)) = jsRound (max 0 (min 100 q)) := by
  rcases le_total q 0 with h0 | h0
  · have hq : max 0 (min 100 q) = 0 := by
      rw [min_eq_right (by linarith : q ≤ 100)]
      exact max_eq_left h0
    have hle : jsRound q ≤ 0 := by
      have h' := jsRound_mono h0
      rwa [jsRound_zero] at h'
    rw [hq, jsRound_zero, min_eq_right (by omega : jsRound q ≤ 100),
      max_eq_left hle]
  · rcases le_total q 100 with h1 | h1
    · have hq : max 0 (min 100 q) = q := by
        rw [min_eq_right h1]
        exact max_eq_right h0
      have hl : 0 ≤ jsRound q := by
        have h' := jsRound_mono h0
        rwa [jsRound_zero] at h'
      have hu : jsRound q ≤ 100 := by
        have h' := jsRound_mono h1
        rwa [jsRound_hundred] at h'
      rw [hq, min_eq_right hu, max_eq_right hl]
    · have hq : max 0 (min 100 q) = 100 := by
        rw [min_eq_left h1]
        exact max_eq_right (by norm_num)
      have hl : 100 ≤ jsRound q := by
        have h' := jsRound_mono h1
        rwa [jsRound_hundred] at h'
      rw [hq, jsRound_hundred, min_eq_left hl,
        max_eq_right (by norm_num : (0 : ℤ) ≤ 100)]

/-! ### Claim theorems -/

/-- C1: for every event list with non-zero total tracked time, the score of
`calculateBalanceScore` is exactly the spec's description: start at 100,
subtract `|actual% − optimal%| × weight × 0.4` for each of the five
categories (weights work 1.0, health 1.2, leisure 0.8, social 0.6,
learning 0.7; optimal {work 40, health 25, leisure 20, social 10,
learning 5}), clamp the final score to [0, 100] and round to the nearest
integer. -/
theorem c1_balance_score_formula (events : List BalanceEvent)
    (h : totalDuration events ≠ 0) :
    (calculateBalanceScore events).score
      = specBalanceScore (breakdownOf events (totalDuration events)) := by
  simp only [calculateBalanceScore, if_neg h, specBalanceScore]
  rw [clamp_jsRound_comm]
  congr 1
  congr 1
  congr 1
  push_cast
  ring

/-- Witness for C1 at a concrete one-event day. -/
theorem c1_balance_score_formula_witness :
    totalDuration [⟨"work", 60⟩] ≠ 0
      ∧ (calculateBalanceScore [⟨"work", 60⟩]).score
          = specBalanceScore (breakdownOf [⟨"work", 60⟩] (totalDuration [⟨"work", 60⟩])) :=
  ⟨by with_unfolding_all decide, c1_balance_score_formula _ (by with_unfolding_all decide)⟩

/-- C2 (counterexample): at the empty event list the returned breakdown is the
fixed fallback `{work 45, health 20, leisure 20, social 10, learning 5}`, not
the all-zero breakdown the claim states. -/
theorem c2_empty_breakdown_counterexample :
    (calculateBalanceScore []).categoryBreakdown ≠ ⟨0, 0, 0, 0, 0⟩ := by
  with_unfolding_all decide

/-- C2 (amended): when the total tracked time is 0 the analysis performs no
division and returns the fixed fallback result — score 60, breakdown
`{work 45, health 20, leisure 20, social 10, learning 5}` and three canned
suggestions — rather than an all-zero breakdown. -/
theorem c2_zero_total_fallback (events : List BalanceEvent)
    (h : totalDuration events = 0) :
    calculateBalanceScore events = getFallbackBalance := by
  simp only [calculateBalanceScore, if_pos h]

/-- Witness for C2 at the empty event list. -/
theorem c2_zero_total_fallback_witness :
    totalDuration [] = 0 ∧ calculateBalanceScore [] = getFallbackBalance :=
  ⟨rfl, c2_zero_total_fallback [] rfl⟩

/-- C3 (counterexample): one event with the non-canonical category "gaming"
gives a non-empty list with positive total time, yet every percentage is 0
(only canonical categories accumulate, while all durations count toward the
total), so the five percentages sum to 0, far outside 100 ± 2. -/
theorem c3_percentage_sum_counterexample :
    totalDuration [⟨"gaming", 10⟩] ≠ 0
      ∧ ¬ (|(calculateBalanceScore [⟨"gaming", 10⟩]).categoryBreakdown.work
            + (calculateBalanceScore [⟨"gaming", 10⟩]).categoryBreakdown.health
            + (calculateBalanceScore [⟨"gaming", 10⟩]).categoryBreakdown.leisure
            + (calculateBalanceScore [⟨"gaming", 10⟩]).categoryBreakdown.social
            + (calculateBalanceScore [⟨"gaming", 10⟩]).categoryBreakdown.learning
            - 100| ≤ 2) := by
  with_unfolding_all decide

/-- C3 (amended): for every event list with non-zero total duration all of
whose events carry canonical categories, the five rounded percentages of the
returned breakdown sum to 100 with tolerance ±2. -/
theorem c3_percentage_sum (events : List BalanceEvent)
    (h0 : totalDuration events ≠ 0)
    (hc : ∀ e ∈ events, e.category ∈ canonicalCategories) :
    |(calculateBalanceScore events).categoryBreakdown.work
      + (calculateBalanceScore events).categoryBreakdown.health
      + (calculateBalanceScore events).categoryBreakdown.leisure
      + (calculateBalanceScore events).categoryBreakdown.social
      + (calculateBalanceScore events).categoryBreakdown.learning
      - 100| ≤ 2 := by
  have hb : (calculateBalanceScore events).categoryBreakdown
      = breakdownOf events (totalDuration events) := by
    simp only [calculateBalanceScore, if_neg h0]
  rw [hb]
  simp only [breakdownOf]
  set T := totalDuration events with hT
  set pw := categoryMinutes "work" events / T * 100 with hpw
  set ph := categoryMinutes "health" events / T * 100 with hph
  set pl := categoryMinutes "leisure" events / T * 100 with hpl
  set ps := categoryMinutes "social" events / T * 100 with hps
  set ple := categoryMinutes "learning" events / T * 100 with hple
  have hcat := categoryMinutes_total events hc
  have hsum : pw + ph + pl + ps + ple = 100 := by
    rw [hpw, hph, hpl, hps, hple]
    field_simp
    linarith [hcat]
  have hub : ((jsRound pw + jsRound ph + jsRound pl + jsRound ps + jsRound ple : ℤ) : ℚ)
      ≤ 100 + 5 / 2 := by
    push_cast
    linarith [jsRound_le pw, jsRound_le ph, jsRound_le pl, jsRound_le ps, jsRound_le ple]
  have hlb : (100 : ℚ) - 5 / 2
      < ((jsRound pw + jsRound ph + jsRound pl + jsRound ps + jsRound ple : ℤ) : ℚ) := by
    push_cast
    linarith [lt_jsRound pw, lt_jsRound ph, lt_jsRound pl, lt_jsRound ps, lt_jsRound ple]
  rw [abs_le]
  have h97 : (97 : ℤ) < jsRound pw + jsRound ph + jsRound pl + jsRound ps + jsRound ple := by
    have hq : (97 : ℚ) < ((jsRound pw + jsRound ph + jsRound pl + jsRound ps + jsRound ple : ℤ) : ℚ) := by
      linarith
    exact_mod_cast hq
  have h103 : jsRound pw + jsRound ph + jsRound pl + jsRound ps + jsRound ple < 103 := by
    have hq : ((jsRound pw + jsRound ph + jsRound pl + jsRound ps + jsRound ple : ℤ) : ℚ) < 103 := by
      linarith
    exact_mod_cast hq
  omega

/-- Witness for C3 at a concrete two-event day with canonical categories. -/
theorem c3_percentage_sum_witness :
    totalDuration [⟨"work", 30⟩, ⟨"health", 70⟩] ≠ 0
      ∧ (∀ e ∈ ([⟨"work", 30⟩, ⟨"health", 70⟩] : List BalanceEvent),
          e.category ∈ canonicalCategories)
      ∧ |(calculateBalanceScore [⟨"work", 30⟩, ⟨"health", 70⟩]).categoryBreakdown.work
          + (calculateBalanceScore [⟨"work", 30⟩, ⟨"health", 70⟩]).categoryBreakdown.health
          + (calculateBalanceScore [⟨"work", 30⟩, ⟨"health", 70⟩]).categoryBreakdown.leisure
          + (calculateBalanceScore [⟨"work", 30⟩, ⟨"health", 70⟩]).categoryBreakdown.social
          + (calculateBalanceScore [⟨"work", 30⟩, ⟨"health", 70⟩]).categoryBreakdown.learning
          - 100| ≤ 2 :=
  ⟨by with_unfolding_all decide, by decide,
    c3_percentage_sum _ (by with_unfolding_all decide) (by decide)⟩

/-- C4: the suggestion generator emits, in category iteration order, one
directive per category whose absolute deviation from optimal exceeds 15
percentage points ("reduce" when actual > optimal, "increase" when
actual < optimal), caps the list at 3, and emits exactly the single affirming
message when no deviation exceeds the threshold. -/
theorem c4_suggestions_match_spec (current : CategoryBreakdown) :
    generateBalanceSuggestions current = specBalanceSuggestions current := by
  simp only [generateBalanceSuggestions, specBalanceSuggestions]
  rw [take3_affirm]

/-- C5 (code bug): with a gateway that fails on every attempt, the loop makes
its 3 attempts with backoff delays of 1000 ms and 2000 ms between failures,
and then `return this.generateFallbackSchedule(request)` invokes the
three-parameter goal-plan fallback with a single argument — so inside it
`request` is `undefined`, reading `request.preferences` throws a `TypeError`,
and the rejection propagates to the caller instead of the fallback schedule
response the claim (and the source's own return type) promises. -/
theorem c5_retry_exhaustion_bug :
    maxRetries = 3
      ∧ generateSchedule (fun _ => GatewayOutcome.failure)
          = ([1000, 2000],
             GenerateScheduleResult.thrown
               "TypeError: Cannot read properties of undefined (reading \x27preferences\x27)") :=
  ⟨rfl, by decide⟩

/-- C6: "2 months" parses to 60 days, "3 weeks" to 21 days, "10 days" to 10
days, and every timeframe string mentioning none of "week", "month" or "day"
(after lowercasing) falls back to the 30-day default. -/
theorem c6_timeframe_parsing :
    parseTimeframeToDays "2 months" = 60
      ∧ parseTimeframeToDays "3 weeks" = 21
      ∧ parseTimeframeToDays "10 days" = 10
      ∧ ∀ timeframe : String,
          containsSubstring (jsToLowerCase timeframe) "week" = false →
          containsSubstring (jsToLowerCase timeframe) "month" = false →
          containsSubstring (jsToLowerCase timeframe) "day" = false →
          parseTimeframeToDays timeframe = 30 := by
  refine ⟨by decide, by decide, by decide, ?_⟩
  intro timeframe h1 h2 h3
  simp only [parseTimeframeToDays, h1, h2, h3]
  rfl

/-- Witness for C6's default clause at a digit-free, unit-free string. -/
theorem c6_timeframe_parsing_witness :
    containsSubstring (jsToLowerCase "soon") "week" = false
      ∧ containsSubstring (jsToLowerCase "soon") "month" = false
      ∧ containsSubstring (jsToLowerCase "soon") "day" = false
      ∧ parseTimeframeToDays "soon" = 30 :=
  ⟨by decide, by decide, by decide,
    c6_timeframe_parsing.2.2.2 "soon" (by decide) (by decide) (by decide)⟩

/-- C7 (counterexample): the parser's filter checks only that the four
required fields are non-empty; it applies no category whitelist, so an item
with the non-canonical category "gaming" survives into the output schedule. -/
theorem c7_category_whitelist_counterexample :
    gamingItem ∈ (parseScheduleResponse (some ⟨some [gamingItem], none, none⟩)).schedule
      ∧ gamingItem.category ∉ canonicalCategories := by
  decide

/-- C7 (amended): when the extracted JSON carries a schedule array, the
returned schedule is exactly that array filtered by truthiness of title,
category, startTime and endTime — items missing one of the four fields are
dropped while the rest of the batch is kept, and no category whitelist is
applied. -/
theorem c7_parser_filters_by_field_presence (parsed : ParsedPayload)
    (arr : List RawScheduleItem) (h : parsed.schedule = some arr) :
    (parseScheduleResponse (some parsed)).schedule = arr.filter itemTruthy := by
  simp only [parseScheduleResponse, h]

/-- Witness for C7 on a payload with one complete and one title-less item. -/
theorem c7_parser_filters_by_field_presence_witness :
    samplePayload.schedule = some sampleScheduleArr
      ∧ (parseScheduleResponse (some samplePayload)).schedule
          = sampleScheduleArr.filter itemTruthy :=
  ⟨rfl, c7_parser_filters_by_field_presence samplePayload sampleScheduleArr rfl⟩

/-- C8 (counterexample): no activity of the fixed fallback schedule template
has category "social", so the template does not span all five categories. -/
theorem c8_fallback_template_counterexample :
    ¬ ∃ i ∈ (generateFallbackScheduleResponse ⟨"General productivity", 0⟩).schedule,
        i.category = "social" := by
  decide

/-- C8 (amended): for every request the schedule fallback returns the fixed
5-activity template whose categories are work, work, health, learning,
leisure — four of the five categories, with social absent — and whose
balance analysis equals the optimal distribution {40, 25, 20, 10, 5}. -/
theorem c8_fallback_template (request : AIScheduleRequest) :
    (generateFallbackScheduleResponse request).schedule.map (fun i => i.category)
        = ["work", "work", "health", "learning", "leisure"]
      ∧ (generateFallbackScheduleResponse request).balanceAnalysis = ⟨40, 25, 20, 10, 5⟩ :=
  ⟨rfl, rfl⟩

/-- C9 (counterexample): the chat fallback indexes its canned replies by
`Math.floor(Math.random() * responses.length)`; two invocations with the same
message but different random draws return different strings, so the fallback
is not a deterministic function of its input. -/
theorem c9_chat_fallback_counterexample :
    generateFallbackChatResponse "Hello" 0
      ≠ generateFallbackChatResponse "Hello" (1/5) := by
  with_unfolding_all decide

/-- C9 (amended): the schedule fallback is deterministic (it does not even
depend on its request), while the chat-reply fallback depends on the random
draw: for any draw in `[0, 1)` it returns one of the five fixed canned
replies, always non-empty, but equal messages need not yield equal replies. -/
theorem c9_fallback_determinism :
    (∀ r1 r2 : AIScheduleRequest,
        generateFallbackScheduleResponse r1 = generateFallbackScheduleResponse r2)
      ∧ ∀ (message : String) (rand : ℚ), 0 ≤ rand → rand < 1 →
          generateFallbackChatResponse message rand ∈ chatFallbackResponses
            ∧ generateFallbackChatResponse message rand ≠ "" := by
  constructor
  · intro r1 r2
    rfl
  · intro message rand h0 h1
    simp only [generateFallbackChatResponse]
    set x := rand * (chatFallbackResponses.length : ℚ) with hx
    have hx5 : x = rand * 5 := by
      rw [hx]
      norm_num [chatFallbackResponses]
    have hub : ⌊x⌋ < 5 := by
      rw [Int.floor_lt]
      push_cast
      rw [hx5]
      linarith
    have hlbf : 0 ≤ ⌊x⌋ := by
      rw [Int.le_floor]
      push_cast
      rw [hx5]
      nlinarith
    set n := ⌊x⌋.toNat with hn
    have hcase : n = 0 ∨ n = 1 ∨ n = 2 ∨ n = 3 ∨ n = 4 := by omega
    rcases hcase with h | h | h | h | h <;> rw [h] <;> exact ⟨by decide, by decide⟩

/-- Witness for C9 at a concrete message and draw. -/
theorem c9_fallback_determinism_witness :
    (0 : ℚ) ≤ 1/2 ∧ (1/2 : ℚ) < 1
      ∧ generateFallbackScheduleResponse ⟨"Learn piano", 1⟩
          = generateFallbackScheduleResponse ⟨"Run a marathon", 2⟩
      ∧ generateFallbackChatResponse "How do I improve?" (1/2) ∈ chatFallbackResponses
      ∧ generateFallbackChatResponse "How do I improve?" (1/2) ≠ "" := by
  refine ⟨by norm_num, by norm_num, c9_fallback_determinism.1 _ _, ?_, ?_⟩
  · exact (c9_fallback_determinism.2 "How do I improve?" (1/2) (by norm_num) (by norm_num)).1
  · exact (c9_fallback_determinism.2 "How do I improve?" (1/2) (by norm_num) (by norm_num)).2

/-- C10: every balance result carries between 1 and 3 suggestions — the
threshold path appends the affirming message when no deviation qualifies and
then slices to 3 — and the zero-time fallback result carries exactly 3. -/
theorem c10_suggestions_count :
    (∀ events : List BalanceEvent,
        1 ≤ (calculateBalanceScore events).suggestions.length
          ∧ (calculateBalanceScore events).suggestions.length ≤ 3)
      ∧ (calculateBalanceScore []).suggestions.length = 3 := by
  constructor
  · intro events
    by_cases h : totalDuration events = 0
    · simp only [calculateBalanceScore, if_pos h]
      exact ⟨by decide, by decide⟩
    · simp only [calculateBalanceScore, if_neg h]
      simp only [generateBalanceSuggestions]
      exact take3_affirm_length _ _
  · rfl
